import Mathlib

/-!
Verification of the authentication/authorization middleware of
content-flow-ai (`src/middlewares/auth.js`): the Token Verifier
(`authenticateToken`), the Role Gate (`requireRole`) and the
Resource-Ownership Gate (`requireWorkspaceAccess`).

The JavaScript middleware is embedded shallowly: each stage becomes a
pure Lean function from the request-relevant data (caller identity,
path parameters, database contents) to the stage's outcome, which is
either "call next()" or "write a terminal JSON error response"
carrying an HTTP status, an `error` code and a `message`.
-/

/-- A row of the `users` table, as attached to `req.user`. -/
structure ReqUser where
  id : Nat
  role : String
  status : String
deriving DecidableEq, Repr

/-- A row of the `workspace_members` table (only the fields the gate reads). -/
structure WorkspaceMember where
  user_id : Nat
  status : String
deriving DecidableEq, Repr

/-- A row of the `workspaces` table together with its joined
`workspace_members(*)` rows, as selected by the ownership gate. -/
structure Workspace where
  id : Nat
  owner_id : Nat
  workspace_members : List WorkspaceMember
deriving DecidableEq, Repr

/-- A row of the `clients` table together with its joined
`workspace:workspaces(*)` row; the join is `none` when the client has no
associated workspace row (`client.workspace` is `null`, so
`client.workspace?.owner_id` is `undefined` in the source). -/
structure Client where
  id : Nat
  user_id : Nat
  creator_id : Nat
  workspace : Option Workspace
deriving DecidableEq, Repr

/-- The tables the ownership gate queries through `supabaseAdmin`. -/
structure DB where
  workspaces : List Workspace
  clients : List Client
deriving Repr

/-- Outcome of a pipeline stage that does not attach data to the request:
either control passes forward (`next`) or a terminal JSON error response
`res.status(status).json(error, message)` is written. -/
inductive MwResult where
  | next
  | respond (status : Nat) (error : String) (message : String)
deriving DecidableEq, Repr

/-- Outcome of the Token Verifier: on success it attaches the resolved
user record to the request (`req.user = user; next()`). -/
inductive AuthResult where
  | next (user : ReqUser)
  | respond (status : Nat) (error : String) (message : String)
deriving DecidableEq, Repr

/-- The possible states of the bearer credential once
`req.headers.authorization` has been split and `jwt.verify` has run:
absent (falsy token), rejected with `JsonWebTokenError` (malformed),
rejected with `TokenExpiredError`, or verified with a decoded
`userId` subject. -/
inductive TokenState where
  | missing
  | malformed
  | expired
  | valid (userId : Nat)
deriving DecidableEq, Repr

/-- Result of the `users` table lookup by id inside the Token Verifier:
the row, a Supabase error / empty result (`error || !user`), or an
unexpected exception thrown during the lookup (caught by the outer
`catch` with a name that is neither `JsonWebTokenError` nor
`TokenExpiredError`). -/
inductive LookupResult where
  | found (user : ReqUser)
  | notFound
  | threw
deriving DecidableEq, Repr

/-- `authenticateToken` from `src/middlewares/auth.js`: verify the bearer
token, resolve the decoded subject to a user row, reject inactive
accounts, otherwise attach the user and pass control forward. -/
def authenticateToken (tok : TokenState) (lookupUser : Nat → LookupResult) :
    AuthResult :=
  match tok with
  | .missing =>
      .respond 401 "Access token required"
        "Please provide a valid authentication token"
  | .malformed =>
      .respond 401 "Invalid token" "The provided token is malformed"
  | .expired =>
      .respond 401 "Token expired" "Please log in again"
  | .valid userId =>
      match lookupUser userId with
      | .notFound =>
          .respond 401 "Invalid token" "User not found or token expired"
      | .threw =>
          .respond 500 "Authentication failed"
            "Internal server error during authentication"
      | .found user =>
          if user.status != "active" then
            .respond 403 "Account inactive" "Your account has been deactivated"
          else
            .next user

/-- The `roles` argument of `requireRole`: the source accepts either a
single role string or an array of role strings. -/
inductive RolesArg where
  | one (role : String)
  | many (roles : List String)
deriving DecidableEq, Repr

/-- `Array.isArray(roles) ? roles : [roles]` from `requireRole`. -/
def normalizeRoles : RolesArg → List String
  | .one role => [role]
  | .many roles => roles

/-- `requireRole(roles)` from `src/middlewares/auth.js`: 401 when no
identity was attached by the Token Verifier, 403 when the identity's role
is not in the allow-list, otherwise pass control forward. -/
def requireRole (roles : RolesArg) (reqUser : Option ReqUser) : MwResult :=
  match reqUser with
  | none =>
      .respond 401 "Authentication required"
        "Please log in to access this resource"
  | some user =>
      let allowedRoles := normalizeRoles roles
      if !(allowedRoles.contains user.role) then
        .respond 403 "Insufficient permissions"
          ("This action requires one of the following roles: " ++
            String.intercalate ", " allowedRoles)
      else
        .next

/-- The body of the client-access check of `requireWorkspaceAccess` once
the client row has been loaded: a `client`-role caller may only access a
client row whose `user_id` is their own id; any other (non-admin) role is
compared against `client.workspace?.owner_id`. -/
def clientDecision (userId : Nat) (userRole : String) (client : Client) :
    MwResult :=
  if userRole == "client" && client.user_id != userId then
    .respond 403 "Access denied" "You can only access your own client data"
  else if userRole != "client" then
    let workspaceOwnerId := client.workspace.map (fun w => w.owner_id)
    if workspaceOwnerId != some userId then
      .respond 403 "Access denied" "You do not have access to this client"
    else
      .next
  else
    .next

/-- The `if (clientId)` block of `requireWorkspaceAccess` followed by the
trailing `next()`: load the client (with its workspace) when a client id
is present, 404 when the row does not exist, otherwise decide per
`clientDecision`. -/
def clientAccessCheck (db : DB) (userId : Nat) (userRole : String)
    (clientId : Option Nat) : MwResult :=
  match clientId with
  | none => .next
  | some cid =>
      match db.clients.find? (fun c => c.id == cid) with
      | none =>
          .respond 404 "Client not found" "The requested client does not exist"
      | some client => clientDecision userId userRole client

/-- `requireWorkspaceAccess` from `src/middlewares/auth.js`: admins pass
immediately; with a workspace id present the workspace is loaded (404 if
absent) and the caller must be its owner or an active member (403
otherwise); then the client check of `clientAccessCheck` runs. -/
def requireWorkspaceAccess (db : DB) (reqUser : ReqUser)
    (workspaceId clientId : Option Nat) : MwResult :=
  let userId := reqUser.id
  let userRole := reqUser.role
  if userRole == "admin" then
    .next
  else
    match workspaceId with
    | none => clientAccessCheck db userId userRole clientId
    | some wid =>
        match db.workspaces.find? (fun w => w.id == wid) with
        | none =>
            .respond 404 "Workspace not found"
              "The requested workspace does not exist"
        | some workspace =>
            let isOwner := workspace.owner_id == userId
            let isMember := workspace.workspace_members.any (fun member =>
              member.user_id == userId && member.status == "active")
            if !isOwner && !isMember then
              .respond 403 "Access denied"
                "You do not have access to this workspace"
            else
              clientAccessCheck db userId userRole clientId

/-- C4: For every request whose resolved caller has role `admin`, the
Ownership Gate calls the next pipeline stage and never denies, regardless
of which workspace or client identifiers are present and regardless of
actual ownership or membership. -/
theorem requireWorkspaceAccess_admin_bypass (db : DB) (u : ReqUser)
    (workspaceId clientId : Option Nat) (h : u.role = "admin") :
    requireWorkspaceAccess db u workspaceId clientId = .next := by
  simp [requireWorkspaceAccess, h]

theorem requireWorkspaceAccess_admin_bypass_witness :
    requireWorkspaceAccess (DB.mk [] []) ⟨1, "admin", "active"⟩
      (some 7) (some 9) = .next :=
  requireWorkspaceAccess_admin_bypass (DB.mk [] []) ⟨1, "admin", "active"⟩
    (some 7) (some 9) rfl

/-- C9: For an admin caller, the Ownership Gate returns success before
performing any database lookup: its outcome does not depend on the
database at all, so an admin request proceeds even when the workspace id
and client id reference nonexistent rows, and the 404-on-missing-resource
behaviour never applies to admins. -/
theorem requireWorkspaceAccess_admin_skips_lookups (db db2 : DB)
    (u : ReqUser) (wid cid : Nat) (h : u.role = "admin")
    (hw : db.workspaces.find? (fun w => w.id == wid) = none)
    (hc : db.clients.find? (fun c => c.id == cid) = none) :
    requireWorkspaceAccess db u (some wid) (some cid) = .next ∧
    requireWorkspaceAccess db u (some wid) (some cid) =
      requireWorkspaceAccess db2 u (some wid) (some cid) := by
  constructor <;> simp [requireWorkspaceAccess, h]

theorem requireWorkspaceAccess_admin_skips_lookups_witness :
    requireWorkspaceAccess (DB.mk [] []) ⟨1, "admin", "active"⟩
      (some 7) (some 9) = .next ∧
    requireWorkspaceAccess (DB.mk [] []) ⟨1, "admin", "active"⟩
      (some 7) (some 9) =
      requireWorkspaceAccess (DB.mk [Workspace.mk 7 2 []] [])
        ⟨1, "admin", "active"⟩ (some 7) (some 9) :=
  requireWorkspaceAccess_admin_skips_lookups (DB.mk [] [])
    (DB.mk [Workspace.mk 7 2 []] []) ⟨1, "admin", "active"⟩ 7 9 rfl rfl rfl

/-- C7: For every request without a bearer credential the Token Verifier
responds 401, and for every malformed-signature or expired credential it
also responds 401, with the expired case carrying an error reason
distinct from the malformed case. -/
theorem authenticateToken_credential_failures
    (lookupUser : Nat → LookupResult) :
    authenticateToken .missing lookupUser =
      .respond 401 "Access token required"
        "Please provide a valid authentication token" ∧
    authenticateToken .malformed lookupUser =
      .respond 401 "Invalid token" "The provided token is malformed" ∧
    authenticateToken .expired lookupUser =
      .respond 401 "Token expired" "Please log in again" ∧
    ("Token expired" : String) ≠ "Invalid token" :=
  ⟨rfl, rfl, rfl, by decide⟩

/-- C8: In the Token Verifier, an unexpected error during the user-record
lookup (neither a malformed-token nor an expired-token condition) is
mapped to a generic 500 response, while an unknown subject (identity no
longer exists) is rejected as a distinct not-found 401 authentication
failure. -/
theorem authenticateToken_lookup_failures (lookupUser : Nat → LookupResult)
    (uid : Nat) :
    (lookupUser uid = .threw →
      authenticateToken (.valid uid) lookupUser =
        .respond 500 "Authentication failed"
          "Internal server error during authentication") ∧
    (lookupUser uid = .notFound →
      authenticateToken (.valid uid) lookupUser =
        .respond 401 "Invalid token" "User not found or token expired") ∧
    ("Authentication failed" : String) ≠ "Invalid token" := by
  refine ⟨?_, ?_, by decide⟩ <;> intro h <;> simp [authenticateToken, h]

theorem authenticateToken_lookup_failures_witness :
    authenticateToken (.valid 3) (fun _ => .threw) =
      .respond 500 "Authentication failed"
        "Internal server error during authentication" :=
  (authenticateToken_lookup_failures (fun _ => .threw) 3).1 rfl

/-- C6: For every valid, verifiable token whose subject resolves to a
user record with status different from `active`, the Token Verifier
denies the request with 403 regardless of the user's role, and the
identity is never attached to the request context. -/
theorem authenticateToken_inactive_denied (lookupUser : Nat → LookupResult)
    (uid : Nat) (u : ReqUser) (hfound : lookupUser uid = .found u)
    (hstatus : u.status ≠ "active") :
    authenticateToken (.valid uid) lookupUser =
      .respond 403 "Account inactive" "Your account has been deactivated" ∧
    ∀ v : ReqUser, authenticateToken (.valid uid) lookupUser ≠ .next v := by
  constructor
  · simp [authenticateToken, hfound, hstatus]
  · intro v
    simp [authenticateToken, hfound, hstatus]

theorem authenticateToken_inactive_denied_witness :
    authenticateToken (.valid 2)
      (fun _ => .found ⟨2, "admin", "suspended"⟩) =
      .respond 403 "Account inactive" "Your account has been deactivated" :=
  (authenticateToken_inactive_denied
    (fun _ => .found ⟨2, "admin", "suspended"⟩) 2
    ⟨2, "admin", "suspended"⟩ rfl (by decide)).1

/-- C5: For every Role Gate configured with an allow-list and every
request with a resolved identity, the gate proceeds if and only if the
identity's role string is an exact member of the allow-list, with no role
hierarchy (in particular `admin` is not implicitly allowed when absent
from the list); a role not in the list is denied with 403. -/
theorem requireRole_exact_membership (roles : List String) (u : ReqUser) :
    (requireRole (.many roles) (some u) = .next ↔ u.role ∈ roles) ∧
    (u.role ∉ roles →
      requireRole (.many roles) (some u) =
        .respond 403 "Insufficient permissions"
          ("This action requires one of the following roles: " ++
            String.intercalate ", " roles)) ∧
    ("admin" ∉ roles → u.role = "admin" →
      requireRole (.many roles) (some u) ≠ .next) := by
  by_cases hmem : u.role ∈ roles
  · have hb : roles.contains u.role = true := by simp [hmem]
    refine ⟨?_, ?_, ?_⟩
    · simp [requireRole, normalizeRoles, hb, hmem]
    · intro hnot; exact absurd hmem hnot
    · intro hadm hrole
      exact absurd (hrole ▸ hmem) hadm
  · have hb : roles.contains u.role = false := by simp [hmem]
    refine ⟨?_, ?_, ?_⟩
    · simp [requireRole, normalizeRoles, hb, hmem]
    · intro _; simp [requireRole, normalizeRoles, hb, hmem]
    · intro _ _; simp [requireRole, normalizeRoles, hb, hmem]

theorem requireRole_exact_membership_witness :
    requireRole (.many ["creator", "agency"])
      (some ⟨1, "admin", "active"⟩) ≠ .next :=
  (requireRole_exact_membership ["creator", "agency"]
    ⟨1, "admin", "active"⟩).2.2 (by decide) rfl

/-- C1: For every request carrying a workspace id, the Ownership Gate for
a non-admin caller responds 404 if the workspace row does not exist
(before any ownership comparison); otherwise it lets the request proceed
past the workspace check (into the client check and trailing `next()`)
if and only if the caller is the workspace's owner or a member whose
membership status is `active`, and responds 403 otherwise. -/
theorem requireWorkspaceAccess_workspace_check (db : DB) (u : ReqUser)
    (wid : Nat) (clientId : Option Nat) (hadmin : u.role ≠ "admin") :
    (db.workspaces.find? (fun w => w.id == wid) = none →
      requireWorkspaceAccess db u (some wid) clientId =
        .respond 404 "Workspace not found"
          "The requested workspace does not exist") ∧
    (∀ ws, db.workspaces.find? (fun w => w.id == wid) = some ws →
      ((ws.owner_id = u.id ∨
          ∃ m ∈ ws.workspace_members, m.user_id = u.id ∧ m.status = "active") →
        requireWorkspaceAccess db u (some wid) clientId =
          clientAccessCheck db u.id u.role clientId) ∧
      (¬(ws.owner_id = u.id ∨
          ∃ m ∈ ws.workspace_members, m.user_id = u.id ∧ m.status = "active") →
        requireWorkspaceAccess db u (some wid) clientId =
          .respond 403 "Access denied"
            "You do not have access to this workspace")) := by
  have hA : (u.role == "admin") = false := by simp [hadmin]
  refine ⟨?_, ?_⟩
  · intro hnone
    simp [requireWorkspaceAccess, hA, hnone]
  · intro ws hws
    constructor
    · intro hperm
      have hb : (!(ws.owner_id == u.id) &&
          !(ws.workspace_members.any fun member =>
            member.user_id == u.id && member.status == "active")) = false := by
        rcases hperm with h | ⟨m, hm, h1, h2⟩
        · simp [h]
        · have hmem : (ws.workspace_members.any fun member =>
              member.user_id == u.id && member.status == "active") = true :=
            List.any_eq_true.2 ⟨m, hm, by simp [h1, h2]⟩
          simp [hmem]
      simp [requireWorkspaceAccess, hA, hws, hb]
    · intro hperm
      push_neg at hperm
      obtain ⟨h1, h2⟩ := hperm
      have ho : (ws.owner_id == u.id) = false := by simp [h1]
      have hm : (ws.workspace_members.any fun member =>
          member.user_id == u.id && member.status == "active") = false := by
        rw [Bool.eq_false_iff]
        intro hany
        obtain ⟨m, hmem, hpm⟩ := List.any_eq_true.1 hany
        rw [Bool.and_eq_true, beq_iff_eq, beq_iff_eq] at hpm
        exact h2 m hmem hpm.1 hpm.2
      simp [requireWorkspaceAccess, hA, hws, ho, hm]

theorem requireWorkspaceAccess_workspace_check_witness :
    requireWorkspaceAccess (DB.mk [Workspace.mk 1 10 []] [])
      ⟨10, "creator", "active"⟩ (some 1) none =
      clientAccessCheck (DB.mk [Workspace.mk 1 10 []] []) 10 "creator" none :=
  ((requireWorkspaceAccess_workspace_check (DB.mk [Workspace.mk 1 10 []] [])
    ⟨10, "creator", "active"⟩ 1 none (by decide)).2
    (Workspace.mk 1 10 []) (by decide)).1 (Or.inl rfl)

/-- C2: For every request carrying a client id where the caller's role is
`client`, the Ownership Gate permits access if and only if the client
record's linked user id (`client.user_id`) equals the caller's id; when
they differ it responds 403, and it responds 404 if the client row does
not exist. -/
theorem requireWorkspaceAccess_client_role_check (db : DB) (u : ReqUser)
    (cid : Nat) (hrole : u.role = "client") :
    (db.clients.find? (fun c => c.id == cid) = none →
      requireWorkspaceAccess db u none (some cid) =
        .respond 404 "Client not found"
          "The requested client does not exist") ∧
    (∀ c, db.clients.find? (fun c => c.id == cid) = some c →
      (requireWorkspaceAccess db u none (some cid) = .next ↔
        c.user_id = u.id) ∧
      (c.user_id ≠ u.id →
        requireWorkspaceAccess db u none (some cid) =
          .respond 403 "Access denied"
            "You can only access your own client data")) := by
  have hA : (u.role == "admin") = false := by simp [hrole]
  have hC : (u.role == "client") = true := by simp [hrole]
  refine ⟨?_, ?_⟩
  · intro hnone
    simp [requireWorkspaceAccess, clientAccessCheck, hA, hnone]
  · intro c hc
    by_cases hu : c.user_id = u.id
    · refine ⟨?_, fun hne => absurd hu hne⟩
      simp [requireWorkspaceAccess, clientAccessCheck, clientDecision,
        hA, hC, hrole, hc, hu]
    · have hb : (c.user_id != u.id) = true := by simp [hu]
      refine ⟨?_, fun _ => ?_⟩ <;>
        simp [requireWorkspaceAccess, clientAccessCheck, clientDecision,
          hA, hC, hrole, hc, hb, hu]

theorem requireWorkspaceAccess_client_role_check_witness :
    requireWorkspaceAccess
      (DB.mk [] [Client.mk 5 2 10 none]) ⟨3, "client", "active"⟩
      none (some 5) =
      .respond 403 "Access denied"
        "You can only access your own client data" :=
  ((requireWorkspaceAccess_client_role_check
    (DB.mk [] [Client.mk 5 2 10 none]) ⟨3, "client", "active"⟩ 5 rfl).2
    (Client.mk 5 2 10 none) (by decide)).2 (by decide)

/-- C3: For every request carrying a client id where the caller's role is
neither `client` nor `admin` (e.g. creator or agency), the Ownership Gate
permits access if and only if the caller's id equals the `owner_id` of
the workspace nested in the client record; the caller is never compared
against the client's own `creator_id` (the decision is invariant under
changing `creator_id`), and a mismatch yields 403. -/
theorem requireWorkspaceAccess_nonclient_owner_check (db : DB)
    (u : ReqUser) (cid : Nat) (h1 : u.role ≠ "client")
    (h2 : u.role ≠ "admin") :
    (∀ c, db.clients.find? (fun x => x.id == cid) = some c →
      (requireWorkspaceAccess db u none (some cid) = .next ↔
        ∃ w, c.workspace = some w ∧ w.owner_id = u.id) ∧
      ((¬∃ w, c.workspace = some w ∧ w.owner_id = u.id) →
        requireWorkspaceAccess db u none (some cid) =
          .respond 403 "Access denied"
            "You do not have access to this client")) ∧
    (∀ c k, clientDecision u.id u.role c =
      clientDecision u.id u.role { c with creator_id := k }) := by
  have hA : (u.role == "admin") = false := by simp [h2]
  have hC : (u.role == "client") = false := by simp [h1]
  refine ⟨?_, fun c k => by cases c; rfl⟩
  intro c hc
  cases hw : c.workspace with
  | none =>
      constructor
      · simp [requireWorkspaceAccess, clientAccessCheck, clientDecision,
          hA, hC, hc, hw, h1]
      · intro _
        simp [requireWorkspaceAccess, clientAccessCheck, clientDecision,
          hA, hC, hc, hw, h1]
  | some w =>
      by_cases ho : w.owner_id = u.id
      · constructor
        · simp [requireWorkspaceAccess, clientAccessCheck, clientDecision,
            hA, hC, hc, hw, ho, h1]
        · intro hno
          exact absurd ⟨w, rfl, ho⟩ hno
      · constructor
        · simp [requireWorkspaceAccess, clientAccessCheck, clientDecision,
            hA, hC, hc, hw, ho, h1]
        · intro _
          simp [requireWorkspaceAccess, clientAccessCheck, clientDecision,
            hA, hC, hc, hw, ho, h1]

theorem requireWorkspaceAccess_nonclient_owner_check_witness :
    requireWorkspaceAccess
      (DB.mk [] [Client.mk 5 2 7 (some (Workspace.mk 1 9 []))])
      ⟨7, "creator", "active"⟩ none (some 5) =
      .respond 403 "Access denied"
        "You do not have access to this client" :=
  (((requireWorkspaceAccess_nonclient_owner_check
    (DB.mk [] [Client.mk 5 2 7 (some (Workspace.mk 1 9 []))])
    ⟨7, "creator", "active"⟩ 5 (by decide) (by decide)).1
    (Client.mk 5 2 7 (some (Workspace.mk 1 9 []))) (by decide)).2
    (by decide))

/-- C10: For every request carrying a client id by a caller whose role is
neither `client` nor `admin`, if the client record exists but has no
associated workspace row (the nested workspace field is `none`), the
Ownership Gate denies with 403 rather than erroring or permitting,
because the absent workspace owner id can never equal the caller's id. -/
theorem requireWorkspaceAccess_null_workspace_denied (db : DB)
    (u : ReqUser) (cid : Nat) (c : Client) (h1 : u.role ≠ "client")
    (h2 : u.role ≠ "admin")
    (hfind : db.clients.find? (fun x => x.id == cid) = some c)
    (hws : c.workspace = none) :
    requireWorkspaceAccess db u none (some cid) =
      .respond 403 "Access denied"
        "You do not have access to this client" := by
  have hA : (u.role == "admin") = false := by simp [h2]
  have hC : (u.role == "client") = false := by simp [h1]
  simp [requireWorkspaceAccess, clientAccessCheck, clientDecision,
    hA, hC, hfind, hws, h1]

theorem requireWorkspaceAccess_null_workspace_denied_witness :
    requireWorkspaceAccess (DB.mk [] [Client.mk 5 2 7 none])
      ⟨7, "agency", "active"⟩ none (some 5) =
      .respond 403 "Access denied"
        "You do not have access to this client" :=
  requireWorkspaceAccess_null_workspace_denied
    (DB.mk [] [Client.mk 5 2 7 none]) ⟨7, "agency", "active"⟩ 5
    (Client.mk 5 2 7 none) (by decide) (by decide) (by decide) rfl

theorem authenticateToken_credential_failures_witness :
    authenticateToken .missing (fun _ => .notFound) =
      .respond 401 "Access token required"
        "Please provide a valid authentication token" :=
  (authenticateToken_credential_failures (fun _ => .notFound)).1
